import Mathlib

/-!
Shallow embedding of the GEOSTORM aggregation pipeline core:
geometry normalization, source adapters, merge/dedup, classification,
overlay composition and spherical geometry, translated from
src/services/liveData.ts, the FEMA service helpers, the hazards/overlay
service and src/components/GlobeMap.tsx.

JavaScript numbers taken from JSON payloads are modelled as rationals
(JSON cannot encode NaN or infinities); the real-valued spherical math
of the globe component is modelled over the reals.
-/

/-- A JSON-like value, used to model the arbitrarily nested coordinate
arrays that the geometry normalizer receives. Objects are opaque: the
traversal code only ever indexes arrays numerically. -/
inductive JVal where
  | jnull : JVal
  | jbool : Bool → JVal
  | jnum : ℚ → JVal
  | jstr : String → JVal
  | jarr : List JVal → JVal
  | jobj : JVal

/-- JavaScript truthiness of a JSON value (the `!c` test in the source). -/
def truthy : JVal → Bool
  | .jnull => false
  | .jbool b => b
  | .jnum q => q ≠ 0
  | .jstr s => s ≠ ""
  | .jarr _ => true
  | .jobj => true

/-- Embedding of `findLonLat` from src/services/liveData.ts:
if the first two elements of the current node are numbers, return them as
a pair; otherwise, if the node is a non-empty array, recurse into its
first element; otherwise return null.  A falsy node (the `!c` guard)
returns null; every non-array node also falls through both the
number-pair test and the `Array.isArray` test, so the catch-all branch is
faithful for arrays and non-arrays alike. -/
def findLonLat : JVal → Option (ℚ × ℚ)
  | .jarr (.jnum a :: .jnum b :: _) => some (a, b)
  | .jarr (x :: _) => findLonLat x
  | _ => none

mutual
/-- Whether a numeric leaf occurs anywhere in the JSON tree. -/
def hasNumLeaf : JVal → Bool
  | .jnum _ => true
  | .jarr xs => hasNumLeafList xs
  | _ => false
/-- List form of `hasNumLeaf`. -/
def hasNumLeafList : List JVal → Bool
  | [] => false
  | x :: r => hasNumLeaf x || hasNumLeafList r
end

mutual
/-- Whether a two-number pair heads an array somewhere in the JSON tree:
the claim's notion of the input containing a pair of numbers. -/
def hasNumPair : JVal → Bool
  | .jarr (.jnum _ :: .jnum _ :: _) => true
  | .jarr xs => hasNumPairList xs
  | _ => false
/-- List form of `hasNumPair`. -/
def hasNumPairList : List JVal → Bool
  | [] => false
  | x :: r => hasNumPair x || hasNumPairList r
end

/-- The spec's algorithm description, read literally: descend into the
first element only; succeed exactly when that leftmost descent reaches an
array whose first two elements are numbers. -/
def spineHasPair : JVal → Bool
  | .jarr (.jnum _ :: .jnum _ :: _) => true
  | .jarr (x :: _) => spineHasPair x
  | _ => false

mutual
/-- Embedding of the `collect` closure of `onPolygonClick` in
src/components/GlobeMap.tsx: an array whose first two elements are
numbers contributes that pair; any other array is traversed element by
element; non-arrays contribute nothing. -/
def collectPts : JVal → List (ℚ × ℚ)
  | .jarr (.jnum a :: .jnum b :: _) => [(a, b)]
  | .jarr xs => collectPtsList xs
  | _ => []
/-- List form of `collectPts`. -/
def collectPtsList : List JVal → List (ℚ × ℚ)
  | [] => []
  | x :: r => collectPts x ++ collectPtsList r
end

/-! ## Normalized data model (src/types/index.ts) -/
/-- Severity union type of DisasterEvent. -/
inductive Severity where
  | Low | Medium | High
  deriving Repr, DecidableEq

/-- Category union type of HazardEvent. -/
inductive Category where
  | Storm | Flood | Wildfire | Earthquake
  deriving Repr, DecidableEq

/-- DisasterEvent from src/types/index.ts. -/
structure DisasterEvent where
  id : String
  type : String
  location : String
  lat : ℚ
  lng : ℚ
  severity : Severity
  timestamp : String
  description : String
  deriving Repr, DecidableEq

/-- EnvironmentalData from src/types/index.ts. -/
structure EnvironmentalData where
  id : String
  location : String
  lat : ℚ
  lng : ℚ
  airQuality : ℚ
  co2Level : ℚ
  pollutionIndex : ℚ
  timestamp : String
  deriving Repr, DecidableEq

/-- ClimateData from src/types/index.ts (only its list type is needed:
the aggregation returns an empty climate list). -/
structure ClimateData where
  id : String
  location : String
  lat : ℚ
  lng : ℚ
  temperature : ℚ
  humidity : ℚ
  windSpeed : ℚ
  timestamp : String
  deriving Repr, DecidableEq

/-- JavaScript `a || b` on an optional string: undefined and the empty
string are falsy. -/
def orElseStr : Option String → String → String
  | some s, d => if s = "" then d else s
  | none, d => d

/-- JavaScript `a || b` on a string. -/
def strOr (s d : String) : String := if s = "" then d else s

/-! ## Fetch outcomes

Each adapter performs one HTTP fetch.  The environment's contribution is
modelled as an outcome: the fetch promise may reject (network error), or
yield a response with an HTTP status flag whose body either parses to a
typed payload or fails to parse (`res.json()` rejecting). -/
/-- Outcome of one `fetch` call as observed by an adapter. -/
inductive FetchOutcome (α : Type) where
  | netError : FetchOutcome α
  | response (ok : Bool) (body : Except Unit α) : FetchOutcome α

/-- The `try { ... } catch { return [] }` pattern shared by the
liveData.ts adapters: a thrown error degrades to the empty list. -/
def catchList {α : Type} : Except Unit (List α) → List α
  | .ok l => l
  | .error _ => []

/-! ## EONET adapter (fetchEonetDisasters, src/services/liveData.ts) -/
/-- One entry of `ev.categories`. -/
structure EonetCategory where
  title : Option String
  deriving Repr, DecidableEq

/-- One entry of `ev.geometry`. -/
structure EonetGeom where
  coordinates : JVal
  date : Option String

/-- One EONET event.  A missing or non-array `geometry` is modelled as
the empty list (the source checks `Array.isArray(ev.geometry) &&
ev.geometry.length > 0`). -/
structure EonetEvent where
  id : Option String
  title : Option String
  geometry : List EonetGeom
  categories : List EonetCategory
  description : Option String

/-- Parsed EONET response body; `json.events || []` is modelled by the
optional list. -/
structure EonetPayload where
  events : Option (List EonetEvent)

/-- The per-event body of the `events.forEach` loop in
`fetchEonetDisasters`: take the last geometry entry, extract a lon/lat
pair with `findLonLat`, and build a DisasterEvent; any failure skips the
event.  The `isFinite` guard of the source is identically true here
because JSON numbers are rationals.  `now` stands for
`new Date().toISOString()`. -/
def eonetEventToDisaster (now : String) (idx : ℕ) (ev : EonetEvent) :
    Option DisasterEvent :=
  match ev.geometry.getLast? with
  | none => none
  | some geom =>
    if ¬truthy geom.coordinates then none
    else
      match findLonLat geom.coordinates with
      | none => none
      | some (lon, lat) =>
        some
          { id := "eonet-" ++ orElseStr ev.id (toString idx)
            type := orElseStr ev.title
              (orElseStr
                (match ev.categories with
                 | c :: _ => c.title
                 | [] => none) "Event")
            location := orElseStr ev.title "Unknown"
            lat := lat
            lng := lon
            severity := .Medium
            timestamp := orElseStr geom.date now
            description := orElseStr ev.description (orElseStr ev.title "") }

/-- Body of `fetchEonetDisasters` up to the try/catch: a network error or
a JSON parse failure throws; a non-2xx status returns the empty list. -/
def fetchEonetDisastersBody (now : String) (o : FetchOutcome EonetPayload) :
    Except Unit (List DisasterEvent) :=
  match o with
  | .netError => .error ()
  | .response ok body =>
    if !ok then .ok []
    else
      match body with
      | .error _ => .error ()
      | .ok json =>
        .ok (((json.events.getD []).enum).filterMap
          (fun p => eonetEventToDisaster now p.1 p.2))

/-- `fetchEonetDisasters`: the body wrapped in try/catch. -/
def fetchEonetDisasters (now : String) (o : FetchOutcome EonetPayload) :
    List DisasterEvent :=
  catchList (fetchEonetDisastersBody now o)

/-! ## USGS adapter (fetchUSGSEarthquakes, src/services/liveData.ts) -/
/-- `properties` of one GeoJSON feature; `time` is an epoch-milliseconds
number. -/
structure USGSProps where
  mag : Option ℚ
  place : Option String
  time : Option ℚ
  deriving Repr, DecidableEq

/-- One GeoJSON feature.  `geometry` is the coordinate array when both
`f.geometry` and `f.geometry.coordinates` are truthy, none otherwise. -/
structure USGSFeature where
  id : Option String
  properties : Option USGSProps
  geometry : Option (List ℚ)
  deriving Repr, DecidableEq

/-- Parsed USGS response body; `json.features || []`. -/
structure USGSPayload where
  features : Option (List USGSFeature)
  deriving Repr, DecidableEq

/-- `f.properties && f.properties.mag ? f.properties.mag : 0` —
a missing properties object, a missing magnitude, and a zero (falsy)
magnitude all yield 0. -/
def usgsMag (f : USGSFeature) : ℚ :=
  match f.properties with
  | some p =>
    match p.mag with
    | some m => if m ≠ 0 then m else 0
    | none => 0
  | none => 0

/-- `mag >= 5 ? 'High' : mag >= 4 ? 'Medium' : 'Low'`. -/
def usgsSeverity (mag : ℚ) : Severity :=
  if mag ≥ 5 then .High else if mag ≥ 4 then .Medium else .Low

/-- `(f.properties && f.properties.time) || Date.now()`: a missing
properties object, a missing time and a zero (falsy) time all fall back
to the current epoch time. -/
def usgsTime (nowMs : ℚ) (f : USGSFeature) : ℚ :=
  match f.properties with
  | some p =>
    match p.time with
    | some t => if t ≠ 0 then t else nowMs
    | none => nowMs
  | none => nowMs

/-- Per-feature body of the `features.map` in `fetchUSGSEarthquakes`.
`iso` stands for `t => new Date(t).toISOString()`.  Indexing `coords[0]`
and `coords[1]` is modelled with a default of 0, faithful whenever the
coordinate array has at least two entries (shorter arrays would give the
JS code NaN coordinates, which the rational model cannot represent). -/
def usgsFeatureToDisaster (iso : ℚ → String) (nowMs : ℚ) (i : ℕ)
    (f : USGSFeature) : DisasterEvent :=
  let mag := usgsMag f
  let coords := f.geometry.getD [0, 0]
  { id := "usgs-" ++ orElseStr f.id (toString i)
    type := "Earthquake"
    location :=
      match f.properties with
      | some p => orElseStr p.place "Unknown"
      | none => "Unknown"
    lat := coords.getD 1 0
    lng := coords.getD 0 0
    severity := usgsSeverity mag
    timestamp := iso (usgsTime nowMs f)
    description := "Magnitude " ++ toString mag }

/-- Body of `fetchUSGSEarthquakes` up to the try/catch. -/
def fetchUSGSEarthquakesBody (iso : ℚ → String) (nowMs : ℚ)
    (o : FetchOutcome USGSPayload) : Except Unit (List DisasterEvent) :=
  match o with
  | .netError => .error ()
  | .response ok body =>
    if !ok then .ok []
    else
      match body with
      | .error _ => .error ()
      | .ok json =>
        .ok (((json.features.getD []).enum).map
          (fun p => usgsFeatureToDisaster iso nowMs p.1 p.2))

/-- `fetchUSGSEarthquakes`: the body wrapped in try/catch. -/
def fetchUSGSEarthquakes (iso : ℚ → String) (nowMs : ℚ)
    (o : FetchOutcome USGSPayload) : List DisasterEvent :=
  catchList (fetchUSGSEarthquakesBody iso nowMs o)

/-! ## FEMA service (fema.ts: fetchFEMADisasters and helpers) -/
/-- One raw item of `DisasterDeclarationsSummaries`. -/
structure FEMARawItem where
  disasterNumber : ℚ
  declarationDate : Option String
  disasterName : Option String
  incidentType : Option String
  state : Option String
  declarationType : Option String
  incidentBeginDate : Option String
  incidentEndDate : Option String
  designatedArea : Option String
  placeCode : Option String
  deriving Repr, DecidableEq

/-- The mapped FEMADisaster record produced by `fetchFEMADisasters`. -/
structure FEMADisaster where
  disasterNumber : ℚ
  declarationDate : Option String
  disasterName : String
  incidentType : String
  state : String
  declarationType : String
  incidentBeginDate : Option String
  incidentEndDate : Option String
  designatedArea : String
  placeCode : String
  deriving Repr, DecidableEq

/-- Parsed OpenFEMA response body; the summaries array may be missing or
malformed (`!data.DisasterDeclarationsSummaries ||
!Array.isArray(...)`). -/
structure FEMAPayload where
  DisasterDeclarationsSummaries : Option (List FEMARawItem)
  deriving Repr, DecidableEq

/-- The per-item mapping inside `fetchFEMADisasters`. -/
def femaItemToDisaster (item : FEMARawItem) : FEMADisaster :=
  { disasterNumber := item.disasterNumber
    declarationDate := item.declarationDate
    disasterName := orElseStr item.disasterName "Unnamed Disaster"
    incidentType := orElseStr item.incidentType "Unknown"
    state := orElseStr item.state ""
    declarationType := orElseStr item.declarationType ""
    incidentBeginDate := item.incidentBeginDate
    incidentEndDate := item.incidentEndDate
    designatedArea := orElseStr item.designatedArea ""
    placeCode := orElseStr item.placeCode "" }

/-- Body of `fetchFEMADisasters` up to the try/catch: a non-2xx status
throws (`throw new Error(...)`), a missing summaries array returns []. -/
def fetchFEMADisastersBody (o : FetchOutcome FEMAPayload) :
    Except Unit (List FEMADisaster) :=
  match o with
  | .netError => .error ()
  | .response ok body =>
    if !ok then .error ()
    else
      match body with
      | .error _ => .error ()
      | .ok json =>
        match json.DisasterDeclarationsSummaries with
        | none => .ok []
        | some items => .ok (items.map femaItemToDisaster)

/-- `fetchFEMADisasters`: the body wrapped in try/catch (errors degrade
to the empty list).  The `limit`/`daysBack` arguments of the source only
shape the request URL, which the outcome already reflects. -/
def fetchFEMADisasters (o : FetchOutcome FEMAPayload) : List FEMADisaster :=
  catchList (fetchFEMADisastersBody o)

/-- The STATE_COORDS table of fema.ts: approximate state centers. -/
def STATE_COORDS : List (String × ℚ × ℚ) :=
  [("AL", 32.806671, -86.791130), ("AK", 61.370716, -152.404419),
   ("AZ", 33.729759, -111.431221), ("AR", 34.969704, -92.373123),
   ("CA", 36.116203, -119.681564), ("CO", 39.059811, -105.311104),
   ("CT", 41.597782, -72.755371), ("DE", 39.318523, -75.507141),
   ("FL", 27.766279, -81.686783), ("GA", 33.040619, -83.643074),
   ("HI", 21.094318, -157.498337), ("ID", 44.240459, -114.478828),
   ("IL", 40.349457, -88.986137), ("IN", 39.849426, -86.258278),
   ("IA", 42.011539, -93.210526), ("KS", 38.526600, -96.726486),
   ("KY", 37.668140, -84.670067), ("LA", 31.169546, -91.867805),
   ("ME", 44.693947, -69.381927), ("MD", 39.063946, -76.802101),
   ("MA", 42.230171, -71.530106), ("MI", 43.326618, -84.536095),
   ("MN", 45.694454, -93.900192), ("MS", 32.741646, -89.678696),
   ("MO", 38.456085, -92.288368), ("MT", 46.921925, -110.454353),
   ("NE", 41.125370, -98.268082), ("NV", 38.313515, -117.055374),
   ("NH", 43.452492, -71.563896), ("NJ", 40.298904, -74.521011),
   ("NM", 34.840515, -106.248482), ("NY", 42.165726, -74.948051),
   ("NC", 35.630066, -79.806419), ("ND", 47.528912, -99.784012),
   ("OH", 40.388783, -82.764915), ("OK", 35.565342, -96.928917),
   ("OR", 44.572021, -122.070938), ("PA", 40.590752, -77.209755),
   ("RI", 41.680893, -71.511780), ("SC", 33.856892, -80.945007),
   ("SD", 44.299782, -99.438828), ("TN", 35.747845, -86.692345),
   ("TX", 31.054487, -97.563461), ("UT", 40.150032, -111.862434),
   ("VT", 44.045876, -72.710686), ("VA", 37.769337, -78.169968),
   ("WA", 47.400902, -121.490494), ("WV", 38.491226, -80.954456),
   ("WI", 44.268543, -89.616508), ("WY", 42.755966, -107.302490),
   ("DC", 38.907192, -77.036871), ("PR", 18.220833, -66.590149),
   ("VI", 18.335765, -64.896335), ("GU", 13.444304, 144.793731),
   ("AS", -14.270972, -170.132217), ("MP", 15.097969, 145.673370)]

/-- `getFEMADisasterCoords`: look the state up in STATE_COORDS and add a
jitter of `(random - 0.5) * 0.5` to each coordinate; `r1` and `r2` model
the two `Math.random()` draws (values in [0, 1)). -/
def getFEMADisasterCoords (r1 r2 : ℚ) (d : FEMADisaster) :
    Option (ℚ × ℚ) :=
  match STATE_COORDS.lookup d.state with
  | none => none
  | some (la, ln) => some (la + (r1 - 0.5) * 0.5, ln + (r2 - 0.5) * 0.5)

/-! ## Classifier (fema.ts: getFEMASeverity and getFEMACategory) -/
/-- JavaScript `s.toLowerCase()`, modelled characterwise (ASCII case
mapping; the keyword rules only involve ASCII). -/
def jsToLower (s : String) : String := ⟨s.data.map Char.toLower⟩

/-- Whether `needle` occurs as a contiguous run at the head of `hay`. -/
def headMatches : List Char → List Char → Bool
  | [], _ => true
  | _ :: _, [] => false
  | a :: as, b :: bs => a = b && headMatches as bs

/-- Whether `needle` occurs contiguously anywhere in `hay`. -/
def containsSub (needle : List Char) : List Char → Bool
  | [] => headMatches needle []
  | c :: rest => headMatches needle (c :: rest) || containsSub needle rest

/-- JavaScript `hay.includes(needle)`: substring containment. -/
def strIncludes (hay needle : String) : Bool :=
  containsSub needle.data hay.data

/-- `getFEMASeverity`: lower-case the incident type, then apply the
ordered keyword rules for severity. -/
def getFEMASeverity (incidentType : String) : Severity :=
  let t := jsToLower incidentType
  if strIncludes t "hurricane" || strIncludes t "tornado" ||
      strIncludes t "earthquake" then .High
  else if strIncludes t "flood" || strIncludes t "fire" ||
      strIncludes t "severe storm" then .Medium
  else .Low

/-- `getFEMACategory`: lower-case the incident type, then apply the
ordered substring rules flood → Flood, fire → Wildfire, earthquake →
Earthquake, with Storm as the default. -/
def getFEMACategory (incidentType : String) : Category :=
  let t := jsToLower incidentType
  if strIncludes t "flood" then .Flood
  else if strIncludes t "fire" then .Wildfire
  else if strIncludes t "earthquake" then .Earthquake
  else .Storm

/-! ## FEMA adapter (fetchFEMADisastersAsEvents, src/services/liveData.ts) -/
/-- Per-disaster mapping of `fetchFEMADisastersAsEvents`; `rand` supplies
the two `Math.random()` draws of `getFEMADisasterCoords` for a given map
index, and `now` stands for `new Date().toISOString()`. -/
def femaDisasterToEvent (rand : ℕ → ℚ × ℚ) (now : String) (idx : ℕ)
    (disaster : FEMADisaster) : Option DisasterEvent :=
  match getFEMADisasterCoords (rand idx).1 (rand idx).2 disaster with
  | none => none
  | some (la, ln) =>
    some
      { id := "fema-" ++ toString disaster.disasterNumber
        type := strOr disaster.incidentType "Disaster"
        location := strOr disaster.designatedArea disaster.state ++ ", " ++
          disaster.state
        lat := la
        lng := ln
        severity := getFEMASeverity disaster.incidentType
        timestamp := orElseStr disaster.declarationDate now
        description := disaster.disasterName ++ " - " ++
          disaster.declarationType }

/-- Body of `fetchFEMADisastersAsEvents` up to the try/catch: the nested
`fetchFEMADisasters` already catches its own errors, so only its mapped
result remains. -/
def fetchFEMADisastersAsEventsBody (rand : ℕ → ℚ × ℚ) (now : String)
    (o : FetchOutcome FEMAPayload) : Except Unit (List DisasterEvent) :=
  .ok (((fetchFEMADisasters o).enum).filterMap
    (fun p => femaDisasterToEvent rand now p.1 p.2))

/-- `fetchFEMADisastersAsEvents`: the body wrapped in try/catch. -/
def fetchFEMADisastersAsEvents (rand : ℕ → ℚ × ℚ) (now : String)
    (o : FetchOutcome FEMAPayload) : List DisasterEvent :=
  catchList (fetchFEMADisastersAsEventsBody rand now o)

/-! ## OpenAQ adapter (fetchOpenAQ, src/services/liveData.ts) -/
/-- `r.coordinates` of one OpenAQ result. -/
structure OpenAQCoordinates where
  latitude : Option ℚ
  longitude : Option ℚ
  deriving Repr, DecidableEq

/-- One OpenAQ measurement.  Well-formed measurements carry a numeric
value; a measurement with an undefined value would propagate NaN in the
JS code, which the rational model does not represent. -/
structure OpenAQMeasurement where
  parameter : String
  value : ℚ
  lastUpdated : Option String
  deriving Repr, DecidableEq

/-- One entry of `json.results`. -/
structure OpenAQResult where
  location : Option String
  city : Option String
  coordinates : Option OpenAQCoordinates
  measurements : Option (List OpenAQMeasurement)
  deriving Repr, DecidableEq

/-- Parsed OpenAQ response body; `json.results || []`. -/
structure OpenAQPayload where
  results : Option (List OpenAQResult)
  deriving Repr, DecidableEq

/-- JavaScript `a || b` on an optional number: undefined and 0 are
falsy. -/
def jsOrQ : Option ℚ → ℚ → ℚ
  | some q, d => if q ≠ 0 then q else d
  | none, d => d

/-- `Math.round`: round half toward positive infinity. -/
def jsRound (q : ℚ) : ℚ := (⌊q + 1/2⌋ : ℤ)

/-- `pm25 ? pm25.value : ((r.measurements && r.measurements[0] &&
r.measurements[0].value) || 0)`. -/
def openAQValue (r : OpenAQResult) : ℚ :=
  match (r.measurements.getD []).find? (fun m => m.parameter = "pm25") with
  | some pm25 => pm25.value
  | none =>
    match r.measurements with
    | some (m :: _) => if m.value ≠ 0 then m.value else 0
    | _ => 0

/-- Per-result mapping of `fetchOpenAQ`. -/
def openAQResultToEnv (now : String) (i : ℕ) (r : OpenAQResult) :
    EnvironmentalData :=
  let coord := r.coordinates.getD ⟨none, none⟩
  let value := openAQValue r
  { id := "openaq-" ++ orElseStr r.location (toString i)
    location := orElseStr r.location (orElseStr r.city "Unknown")
    lat := jsOrQ coord.latitude 0
    lng := jsOrQ coord.longitude 0
    airQuality := jsRound value
    co2Level := 400
    pollutionIndex := jsRound (value / 50 * 10) / 10
    timestamp :=
      (match r.measurements with
       | some (m :: _) => orElseStr m.lastUpdated now
       | _ => now) }

/-- Body of `fetchOpenAQ` up to the try/catch, including the final
filter that drops records whose coordinates are exactly (0, 0). -/
def fetchOpenAQBody (now : String) (o : FetchOutcome OpenAQPayload) :
    Except Unit (List EnvironmentalData) :=
  match o with
  | .netError => .error ()
  | .response ok body =>
    if !ok then .ok []
    else
      match body with
      | .error _ => .error ()
      | .ok json =>
        .ok ((((json.results.getD []).enum).map
          (fun p => openAQResultToEnv now p.1 p.2)).filter
            (fun x => x.lat ≠ 0 || x.lng ≠ 0))

/-- `fetchOpenAQ`: the body wrapped in try/catch. -/
def fetchOpenAQ (now : String) (o : FetchOutcome OpenAQPayload) :
    List EnvironmentalData :=
  catchList (fetchOpenAQBody now o)

/-! ## Merger (fetchLiveData, src/services/liveData.ts) -/
/-- One `disastersMap.set(d.id, d)` step on the insertion-ordered
association list that models a JavaScript `Map`: an existing key keeps
its position and takes the new value; a new key is appended. -/
def insertLWW (m : List (String × DisasterEvent)) (d : DisasterEvent) :
    List (String × DisasterEvent) :=
  if m.any (fun p => p.1 = d.id) then
    m.map (fun p => if p.1 = d.id then (p.1, d) else p)
  else m ++ [(d.id, d)]

/-- `[...eonet, ...usgs, ...fema].forEach(d => disastersMap.set(d.id, d))`
followed by `Array.from(disastersMap.values())`. -/
def mergeById (ds : List DisasterEvent) : List DisasterEvent :=
  (ds.foldl insertLWW []).map Prod.snd

/-- Result record of `fetchLiveData`. -/
structure LiveDataResult where
  disasters : List DisasterEvent
  environmental : List EnvironmentalData
  climate : List ClimateData
  deriving Repr, DecidableEq

/-- The EONET adapter as a promise: its body is entirely wrapped in
try/catch, so the promise always resolves. -/
def fetchEonetDisastersP (now : String) (o : FetchOutcome EonetPayload) :
    Except Unit (List DisasterEvent) :=
  .ok (fetchEonetDisasters now o)

/-- The USGS adapter as a promise. -/
def fetchUSGSEarthquakesP (iso : ℚ → String) (nowMs : ℚ)
    (o : FetchOutcome USGSPayload) : Except Unit (List DisasterEvent) :=
  .ok (fetchUSGSEarthquakes iso nowMs o)

/-- The FEMA adapter as a promise. -/
def fetchFEMADisastersAsEventsP (rand : ℕ → ℚ × ℚ) (now : String)
    (o : FetchOutcome FEMAPayload) : Except Unit (List DisasterEvent) :=
  .ok (fetchFEMADisastersAsEvents rand now o)

/-- The OpenAQ adapter as a promise. -/
def fetchOpenAQP (now : String) (o : FetchOutcome OpenAQPayload) :
    Except Unit (List EnvironmentalData) :=
  .ok (fetchOpenAQ now o)

/-- `fetchLiveData`: `Promise.all` over the four adapters (the bind
rejects as soon as one of the joined promises rejects), then merge of
the three disaster lists keyed by id, with an empty climate list. -/
def fetchLiveData (now : String) (iso : ℚ → String) (nowMs : ℚ)
    (rand : ℕ → ℚ × ℚ) (oE : FetchOutcome EonetPayload)
    (oU : FetchOutcome USGSPayload) (oF : FetchOutcome FEMAPayload)
    (oA : FetchOutcome OpenAQPayload) : Except Unit LiveDataResult := do
  let eonet ← fetchEonetDisastersP now oE
  let usgs ← fetchUSGSEarthquakesP iso nowMs oU
  let fema ← fetchFEMADisastersAsEventsP rand now oF
  let openaq ← fetchOpenAQP now oA
  return { disasters := mergeById (eonet ++ usgs ++ fema)
           environmental := openaq
           climate := [] }

/-! ## Hazards service (the fetchHazardEvents / fetchInfrastructureSites /
transform / fetchLiveOverlay module) -/
/-- HazardEvent from src/types/index.ts. -/
structure HazardEvent where
  id : String
  title : String
  category : Category
  lat : ℚ
  lng : ℚ
  intensity : ℚ
  detectedAt : String
  source : String
  deriving Repr, DecidableEq

/-- Infrastructure type union of InfrastructureSite. -/
inductive InfraType where
  | Hospital | PowerPlant | Port | Bridge | Shelter
  deriving Repr, DecidableEq

/-- Infrastructure status union of InfrastructureSite. -/
inductive InfraStatus where
  | Operational | Degraded | Offline
  deriving Repr, DecidableEq

/-- InfrastructureSite from src/types/index.ts. -/
structure InfrastructureSite where
  id : String
  name : String
  type : InfraType
  lat : ℚ
  lng : ℚ
  status : InfraStatus
  lastUpdated : String
  deriving Repr, DecidableEq

/-- Numeric array indexing `c?.[n]` on a JSON value. -/
def jvalIdx : JVal → ℕ → Option JVal
  | .jarr xs, n => xs.get? n
  | _, _ => none

/-- Whether `c?.[n]` is a number (the `typeof ... === 'number'` test). -/
def jvalIdxIsNum (c : JVal) (n : ℕ) : Bool :=
  match jvalIdx c n with
  | some (.jnum _) => true
  | _ => false

/-- The number at `c[n]`, defaulting to 0 (used only after
`jvalIdxIsNum` has been established). -/
def jvalIdxNum (c : JVal) (n : ℕ) : ℚ :=
  match jvalIdx c n with
  | some (.jnum q) => q
  | _ => 0

/-- JavaScript template interpolation of a possibly-undefined string,
as in the id template of the hazards module. -/
def jsTemplate : Option String → String
  | some s => s
  | none => "undefined"

/-- One geometry entry of an EONET event as read by the hazards module
(`ev.geometry?.[0]`, with raw nested `coordinates`). -/
structure Eonet2Geom where
  coordinates : JVal
  date : Option String

/-- One EONET event as read by the hazards module. -/
structure Eonet2Event where
  id : Option String
  title : Option String
  categories : List EonetCategory
  geometry : Option (List Eonet2Geom)

/-- EONET response body as read by the hazards module;
`Array.isArray(eonet?.events)` guards the whole loop. -/
structure Eonet2Payload where
  events : Option (List Eonet2Event)

/-- The EONET category → HazardEvent category keyword mapping of the
hazards module, applied to the lower-cased first category title: fire
keywords first, then flood, then seismic keywords, then storm keywords,
with Storm as the initial default. -/
def eonet2Category (catTitle : String) : Category :=
  if strIncludes catTitle "wildfire" || strIncludes catTitle "fire" then
    .Wildfire
  else if strIncludes catTitle "flood" then .Flood
  else if strIncludes catTitle "earthquake" ||
      strIncludes catTitle "seismic" then .Earthquake
  else if strIncludes catTitle "storm" || strIncludes catTitle "cyclone" ||
      strIncludes catTitle "hurricane" then .Storm
  else .Storm

/-- `Math.min(10, Math.max(1, ev.geometry?.length || 1))`. -/
def eonet2Intensity (ev : Eonet2Event) : ℚ :=
  let glen : ℚ :=
    match ev.geometry with
    | some gs => if gs.length = 0 then 1 else (gs.length : ℚ)
    | none => 1
  min 10 (max 1 glen)

/-- Per-event body of the EONET loop of `fetchHazardEvents`.
`cleanTitle` stands for the regex-based display-name cleanup of the
source (category-prefix strip, trailing-parenthetical strip, space
collapse), which no property of this development depends on; `nowIso`
stands for `new Date(now).toISOString()`. -/
def eonet2EventToHazard (cleanTitle : String → String) (nowIso : String)
    (ev : Eonet2Event) : Option HazardEvent :=
  let catTitle :=
    jsToLower
      (orElseStr
        (match ev.categories with
         | c :: _ => c.title
         | [] => none) "")
  match (ev.geometry.getD []).head? with
  | none => none
  | some geom =>
    if ¬(jvalIdxIsNum geom.coordinates 1 && jvalIdxIsNum geom.coordinates 0)
    then none
    else
      let rawTitle := cleanTitle (orElseStr ev.title "Unnamed Event")
      some
        { id := "eonet-" ++ jsTemplate ev.id
          title := strOr rawTitle "Unnamed Event"
          category := eonet2Category catTitle
          lat := jvalIdxNum geom.coordinates 1
          lng := jvalIdxNum geom.coordinates 0
          intensity := eonet2Intensity ev
          detectedAt := orElseStr geom.date nowIso
          source := "NASA EONET" }

/-- The EONET segment of `fetchHazardEvents` up to its try/catch:
`safeFetch` throws on network error, non-2xx status and parse failure;
a payload whose `events` is not an array contributes nothing. -/
def hazardEonetSegmentBody (cleanTitle : String → String) (nowIso : String)
    (o : FetchOutcome Eonet2Payload) : Except Unit (List HazardEvent) :=
  match o with
  | .netError => .error ()
  | .response ok body =>
    if !ok then .error ()
    else
      match body with
      | .error _ => .error ()
      | .ok json =>
        match json.events with
        | none => .ok []
        | some evs =>
          .ok (evs.filterMap (eonet2EventToHazard cleanTitle nowIso))

/-- The FEMA segment of `fetchHazardEvents`: map each declaration that
resolves to coordinates; `rand` supplies the jitter draws and `irand`
the intensity draw (`Math.floor(Math.random() * 5) + 3`). -/
def hazardFemaSegment (rand : ℕ → ℚ × ℚ) (irand : ℕ → ℚ) (nowIso : String)
    (o : FetchOutcome FEMAPayload) : List HazardEvent :=
  ((fetchFEMADisasters o).enum).filterMap (fun p =>
    match getFEMADisasterCoords (rand p.1).1 (rand p.1).2 p.2 with
    | none => none
    | some (la, ln) =>
      some
        { id := "fema-" ++ toString p.2.disasterNumber
          title := p.2.disasterName
          category := getFEMACategory p.2.incidentType
          lat := la
          lng := ln
          intensity := (⌊irand p.1 * 5⌋ : ℤ) + 3
          detectedAt := orElseStr p.2.declarationDate nowIso
          source := "FEMA" })

/-- `fetchHazardEvents`: the EONET segment (its errors caught, degrading
to no contribution) followed by the FEMA segment (whose own fetch
already catches internally). -/
def fetchHazardEvents (cleanTitle : String → String) (nowIso : String)
    (rand : ℕ → ℚ × ℚ) (irand : ℕ → ℚ) (oE : FetchOutcome Eonet2Payload)
    (oF : FetchOutcome FEMAPayload) : List HazardEvent :=
  catchList (hazardEonetSegmentBody cleanTitle nowIso oE) ++
    hazardFemaSegment rand irand nowIso oF

/-- Tags of one Overpass element (`el.tags || {}` modelled by the
optional field defaults). -/
structure OverpassTags where
  amenity : Option String
  power : Option String
  harbour : Option String
  name : Option String
  deriving Repr, DecidableEq

/-- One Overpass element. -/
structure OverpassElement where
  id : Option String
  lat : Option ℚ
  lon : Option ℚ
  tags : Option OverpassTags
  deriving Repr, DecidableEq

/-- Overpass response body; `Array.isArray(json?.elements)`. -/
structure OverpassPayload where
  elements : Option (List OverpassElement)
  deriving Repr, DecidableEq

/-- Truthiness of an optional string tag value (`tags.harbour` test). -/
def tagTruthy : Option String → Bool
  | some s => s ≠ ""
  | none => false

/-- The infrastructure type chain of `fetchInfrastructureSites`. -/
def overpassType (tags : OverpassTags) : Option InfraType :=
  if tags.amenity = some "hospital" then some .Hospital
  else if tags.power = some "plant" then some .PowerPlant
  else if tagTruthy tags.harbour then some .Port
  else if tags.amenity = some "shelter" then some .Shelter
  else none

/-- Display name of an infrastructure type, as concatenated into the
fallback name `type + ' (OSM)'`. -/
def infraTypeString : InfraType → String
  | .Hospital => "Hospital"
  | .PowerPlant => "Power Plant"
  | .Port => "Port"
  | .Bridge => "Bridge"
  | .Shelter => "Shelter"

/-- Per-element mapping of the Overpass loop. -/
def overpassElementToSite (nowIso : String) (el : OverpassElement) :
    Option InfrastructureSite :=
  match el.lat, el.lon with
  | some la, some lo =>
    let tags := el.tags.getD ⟨none, none, none, none⟩
    match overpassType tags with
    | none => none
    | some ty =>
      some
        { id := "osm-" ++ jsTemplate el.id
          name := orElseStr tags.name (infraTypeString ty ++ " (OSM)")
          type := ty
          lat := la
          lng := lo
          status := .Operational
          lastUpdated := nowIso }
  | _, _ => none

/-- Body of `fetchInfrastructureSites` up to the try/catch: a network
error, non-2xx status or parse failure throws; at most 60 elements are
processed; a payload without an elements array yields no sites. -/
def fetchInfrastructureSitesBody (nowIso : String)
    (o : FetchOutcome OverpassPayload) : Except Unit (List InfrastructureSite) :=
  match o with
  | .netError => .error ()
  | .response ok body =>
    if !ok then .error ()
    else
      match body with
      | .error _ => .error ()
      | .ok json =>
        match json.elements with
        | none => .ok []
        | some els =>
          .ok ((els.take 60).filterMap (overpassElementToSite nowIso))

/-- The fixed mock fallback pushed by the catch block of
`fetchInfrastructureSites` (the `sites` list is necessarily empty when
the body throws, so the `!sites.length` guard always passes there). -/
def mockInfrastructureSites (nowIso : String) : List InfrastructureSite :=
  [{ id := "mock-hospital", name := "Central Hospital", type := .Hospital,
     lat := 51.5, lng := -0.11, status := .Operational,
     lastUpdated := nowIso },
   { id := "mock-power", name := "Grid Plant", type := .PowerPlant,
     lat := 38.55, lng := -121.50, status := .Degraded,
     lastUpdated := nowIso }]

/-- `fetchInfrastructureSites`: the body wrapped in try/catch, with the
catch block substituting the two mock sites. -/
def fetchInfrastructureSites (nowIso : String)
    (o : FetchOutcome OverpassPayload) : List InfrastructureSite :=
  match fetchInfrastructureSitesBody nowIso o with
  | .ok l => l
  | .error _ => mockInfrastructureSites nowIso

/-- Overlay point kind. -/
inductive OverlayKind where
  | hazard | infrastructure
  deriving Repr, DecidableEq

/-- CombinedOverlayPoint of the hazards module. -/
structure CombinedOverlayPoint where
  lat : ℚ
  lng : ℚ
  size : ℚ
  color : String
  label : String
  kind : OverlayKind
  original : HazardEvent ⊕ InfrastructureSite
  deriving Repr, DecidableEq

/-- String form of a hazard category (the union values of the type). -/
def categoryString : Category → String
  | .Storm => "Storm"
  | .Flood => "Flood"
  | .Wildfire => "Wildfire"
  | .Earthquake => "Earthquake"

/-- The color chain of `transformHazards`: lower-case the category and
compare against the palette keys, keeping the default blue when nothing
matches. -/
def hazardColor (c : Category) : String :=
  let cat := jsToLower (categoryString c)
  if cat = "wildfire" then "#fb923c"
  else if cat = "flood" then "#22d3ee"
  else if cat = "earthquake" then "#a855f7"
  else if cat = "storm" then "#6366f1"
  else "#3b82f6"

/-- `transformHazards`: one point per hazard, with clamped linear size
`Math.min(6, 2 + h.intensity / 2)`. -/
def transformHazards (hazards : List HazardEvent) : List CombinedOverlayPoint :=
  hazards.map (fun h =>
    { lat := h.lat
      lng := h.lng
      size := min 6 (2 + h.intensity / 2)
      color := hazardColor h.category
      label := h.title
      kind := .hazard
      original := .inl h })

/-- The status → size tiers of `transformInfrastructure`. -/
def infraSize : InfraStatus → ℚ
  | .Operational => 1.4
  | .Degraded => 2.0
  | .Offline => 2.4

/-- The status → color palette of `transformInfrastructure`. -/
def infraColor : InfraStatus → String
  | .Operational => "#10b981"
  | .Degraded => "#f59e0b"
  | .Offline => "#dc2626"

/-- `transformInfrastructure`: one point per site. -/
def transformInfrastructure (sites : List InfrastructureSite) :
    List CombinedOverlayPoint :=
  sites.map (fun s =>
    { lat := s.lat
      lng := s.lng
      size := infraSize s.status
      color := infraColor s.status
      label := s.name
      kind := .infrastructure
      original := .inr s })

/-- `fetchHazardEvents` as a promise: every fallible segment inside it is
wrapped in try/catch, so it always resolves. -/
def fetchHazardEventsP (cleanTitle : String → String) (nowIso : String)
    (rand : ℕ → ℚ × ℚ) (irand : ℕ → ℚ) (oE : FetchOutcome Eonet2Payload)
    (oF : FetchOutcome FEMAPayload) : Except Unit (List HazardEvent) :=
  .ok (fetchHazardEvents cleanTitle nowIso rand irand oE oF)

/-- `fetchInfrastructureSites` as a promise. -/
def fetchInfrastructureSitesP (nowIso : String)
    (o : FetchOutcome OverpassPayload) : Except Unit (List InfrastructureSite) :=
  .ok (fetchInfrastructureSites nowIso o)

/-- `fetchLiveOverlay`: `Promise.all` over the two fetches, then the
concatenation of the two transforms. -/
def fetchLiveOverlay (cleanTitle : String → String) (nowIso : String)
    (rand : ℕ → ℚ × ℚ) (irand : ℕ → ℚ) (oE : FetchOutcome Eonet2Payload)
    (oF : FetchOutcome FEMAPayload) (oI : FetchOutcome OverpassPayload) :
    Except Unit (List CombinedOverlayPoint) := do
  let hazards ← fetchHazardEventsP cleanTitle nowIso rand irand oE oF
  let infra ← fetchInfrastructureSitesP nowIso oI
  return transformHazards hazards ++ transformInfrastructure infra

/-! ## Spherical geometry (onPolygonClick, src/components/GlobeMap.tsx) -/
/-- JavaScript `Math.atan2(y, x)`: the angle of the point (x, y),
extended by quadrant corrections, with atan2(0, 0) = 0. -/
noncomputable def atan2 (y x : ℝ) : ℝ :=
  if 0 < x then Real.arctan (y / x)
  else if x < 0 ∧ 0 ≤ y then Real.arctan (y / x) + Real.pi
  else if x < 0 ∧ y < 0 then Real.arctan (y / x) - Real.pi
  else if x = 0 ∧ 0 < y then Real.pi / 2
  else if x = 0 ∧ y < 0 then -(Real.pi / 2)
  else 0

/-- The x-accumulator of the vertex loop of `onPolygonClick`: sum of
`cos(radLat) * cos(radLon)` over the (lon, lat) vertices. -/
noncomputable def centroidSumX (pts : List (ℝ × ℝ)) : ℝ :=
  (pts.map (fun p =>
    Real.cos (p.2 * Real.pi / 180) * Real.cos (p.1 * Real.pi / 180))).sum

/-- The y-accumulator: sum of `cos(radLat) * sin(radLon)`. -/
noncomputable def centroidSumY (pts : List (ℝ × ℝ)) : ℝ :=
  (pts.map (fun p =>
    Real.cos (p.2 * Real.pi / 180) * Real.sin (p.1 * Real.pi / 180))).sum

/-- The z-accumulator: sum of `sin(radLat)`. -/
noncomputable def centroidSumZ (pts : List (ℝ × ℝ)) : ℝ :=
  (pts.map (fun p => Real.sin (p.2 * Real.pi / 180))).sum

/-- `len = Math.sqrt(x*x + y*y + z*z)`. -/
noncomputable def centroidLen (pts : List (ℝ × ℝ)) : ℝ :=
  Real.sqrt (centroidSumX pts ^ 2 + centroidSumY pts ^ 2 +
    centroidSumZ pts ^ 2)

/-- The spherical-centroid computation of `onPolygonClick`: convert each
(lon, lat) vertex to a 3D unit vector, sum, and when the sum has nonzero
length normalize it and convert back via asin/atan2, in degrees.  An
empty vertex list (`pts.length === 0`) and a zero-length sum (`len ===
0`) both abandon the computation. -/
noncomputable def sphericalCentroid (pts : List (ℝ × ℝ)) : Option (ℝ × ℝ) :=
  if pts = [] then none
  else
    let len := centroidLen pts
    if len = 0 then none
    else
      some (Real.arcsin (centroidSumZ pts / len) * 180 / Real.pi,
        atan2 (centroidSumY pts / len) (centroidSumX pts / len) * 180 /
          Real.pi)

/-- Modelled from the spec: the great-circle destination operation
(start point, bearing in degrees clockwise from north, distance, Earth
radius 6371 km) is described in the Geospatial Math section but its
implementation is not among the provided source files.  Standard
spherical destination formula, degrees in and out, returning
(latitude, longitude). -/
noncomputable def destinationPoint (lat lon bearingDeg distKm : ℝ) : ℝ × ℝ :=
  let R : ℝ := 6371
  let δ := distKm / R
  let θ := bearingDeg * Real.pi / 180
  let φ1 := lat * Real.pi / 180
  let lam1 := lon * Real.pi / 180
  let φ2 := Real.arcsin (Real.sin φ1 * Real.cos δ +
    Real.cos φ1 * Real.sin δ * Real.cos θ)
  let lam2 := lam1 + atan2 (Real.sin θ * Real.sin δ * Real.cos φ1)
    (Real.cos δ - Real.sin φ1 * Real.sin φ2)
  (φ2 * 180 / Real.pi, lam2 * 180 / Real.pi)

/-! ## Merger lemmas: the JavaScript Map models last-writer-wins
keyed insertion with first-occurrence ordering -/
def keysOf (m : List (String × DisasterEvent)) : List String := m.map Prod.fst

def lastWithId (ds : List DisasterEvent) (i : String) : Option DisasterEvent :=
  ds.reverse.find? (fun d => d.id = i)

def firstOccurrences : List String → List String
  | [] => []
  | i :: r => i :: (firstOccurrences r).filter (fun j => j ≠ i)

def updEntry (ds : List DisasterEvent) (p : String × DisasterEvent) :
    String × DisasterEvent :=
  (p.1, (lastWithId ds p.1).getD p.2)

def newEntries (ds : List DisasterEvent) (ks : List String) :
    List (String × DisasterEvent) :=
  (firstOccurrences ((ds.map DisasterEvent.id).filter
      (fun i => ¬i ∈ ks))).filterMap
    (fun k => (lastWithId ds k).map (fun d => (k, d)))

/-- Sample merger input: an EONET-prefixed event. -/
def mergeSampleA : DisasterEvent :=
  ⟨"eonet-1", "Storm", "L", 1, 2, .Medium, "t", ""⟩

/-- Sample merger input: a later event with the same id as
`mergeSampleA` but a different severity. -/
def mergeSampleA2 : DisasterEvent :=
  ⟨"eonet-1", "Storm", "L", 1, 2, .High, "t2", ""⟩

/-- Sample merger input: a USGS-prefixed event at the same coordinates
as `mergeSampleA`. -/
def mergeSampleB : DisasterEvent :=
  ⟨"usgs-1", "Earthquake", "L", 1, 2, .Low, "t", ""⟩

/-- A timestamp-rendering stub for `new Date(t).toISOString()`. -/
def isoStub : ℚ → String := fun _ => "tIso"

/-- A `Math.random` stream that always draws 0.5, making the FEMA
positional jitter zero. -/
def randHalf : ℕ → ℚ × ℚ := fun _ => (1/2, 1/2)

/-- A successful EONET response with no events. -/
def emptyEonetOutcome : FetchOutcome EonetPayload := .response true (.ok ⟨some []⟩)

/-- A successful USGS response with no features. -/
def emptyUSGSOutcome : FetchOutcome USGSPayload := .response true (.ok ⟨some []⟩)

/-- A successful OpenAQ response with no results. -/
def emptyOpenAQOutcome : FetchOutcome OpenAQPayload :=
  .response true (.ok ⟨some []⟩)

/-- An EONET event with native id e1 and title Alpha at integer
coordinates. -/
def eonetDupEvent1 : EonetEvent :=
  ⟨some "e1", some "Alpha", [⟨.jarr [.jnum 10, .jnum 20], some "d1"⟩], [],
    none⟩

/-- A second EONET event carrying the same native id e1, title Beta. -/
def eonetDupEvent2 : EonetEvent :=
  ⟨some "e1", some "Beta", [⟨.jarr [.jnum 10, .jnum 20], some "d2"⟩], [],
    none⟩

/-- A successful EONET response holding only the Alpha event. -/
def eonetSingleOutcome : FetchOutcome EonetPayload :=
  .response true (.ok ⟨some [eonetDupEvent1]⟩)

/-- A successful EONET response holding both same-id events. -/
def eonetDupOutcome : FetchOutcome EonetPayload :=
  .response true (.ok ⟨some [eonetDupEvent1, eonetDupEvent2]⟩)

/-- A successful declarations response with no rows. -/
def emptyFEMAOutcome : FetchOutcome FEMAPayload := .response true (.ok ⟨some []⟩)

/-- The record the natural-event adapter builds from `eonetDupEvent1`. -/
def eonetAlphaEvent : DisasterEvent :=
  ⟨"eonet-e1", "Alpha", "Alpha", 20, 10, .Medium, "d1", "Alpha"⟩

/-! ## C3: adapter failure behavior -/
/-- Failure modes of one fetch: network error, non-2xx status, or an
unparseable body. -/
def isFailureOutcome {α : Type} : FetchOutcome α → Bool
  | .netError => true
  | .response ok body =>
    !ok || (match body with | .error _ => true | .ok _ => false)

/-! ## C6: coordinate validation -/
/-- Latitudes of a disaster list. -/
def latsOf (l : List DisasterEvent) : List ℚ := l.map DisasterEvent.lat

/-- An EONET event whose coordinates are finite but far outside the
legal latitude/longitude ranges. -/
def eonetOutOfRangeEvent : EonetEvent :=
  ⟨some "e2", some "Gamma", [⟨.jarr [.jnum 500, .jnum 200], some "d"⟩], [],
    none⟩

/-- A successful EONET response holding the out-of-range event. -/
def eonetOutOfRangeOutcome : FetchOutcome EonetPayload :=
  .response true (.ok ⟨some [eonetOutOfRangeEvent]⟩)

/-- A feature with no geometry, no properties. -/
def usgsFeatureNoGeom : USGSFeature := ⟨some "q1", none, none⟩

/-- A sample hazard of intensity 4. -/
def sampleHazard : HazardEvent := ⟨"h1", "T", .Wildfire, 1, 2, 4, "t", "s"⟩

/-- The overlay point the composer builds from `sampleHazard`. -/
def samplePoint : CombinedOverlayPoint :=
  { lat := 1, lng := 2, size := min 6 (2 + (4 : ℚ) / 2),
    color := hazardColor .Wildfire, label := "T", kind := .hazard,
    original := .inl sampleHazard }

/-- A sample degraded site. -/
def sampleSite : InfrastructureSite :=
  ⟨"s1", "N", .Hospital, 1, 2, .Degraded, "t"⟩

/-- The overlay point the composer builds from `sampleSite`. -/
def sampleSitePoint : CombinedOverlayPoint :=
  { lat := 1, lng := 2, size := infraSize .Degraded,
    color := infraColor .Degraded, label := "N", kind := .infrastructure,
    original := .inr sampleSite }

/-! ## Lemmas about the geometry normalizer -/
/-- The normalizer succeeds exactly when the leftmost descent described
by the spec reaches an array headed by two numbers. -/
theorem findLonLat_isSome_eq_spine :
    ∀ c : JVal, (findLonLat c).isSome = spineHasPair c
  | .jnull => rfl
  | .jbool _ => rfl
  | .jnum _ => rfl
  | .jstr _ => rfl
  | .jobj => rfl
  | .jarr [] => rfl
  | .jarr (.jnum _ :: .jnum _ :: _) => rfl
  | .jarr (.jnum _ :: []) => rfl
  | .jarr (.jnum _ :: .jnull :: _) => rfl
  | .jarr (.jnum _ :: .jbool _ :: _) => rfl
  | .jarr (.jnum _ :: .jstr _ :: _) => rfl
  | .jarr (.jnum _ :: .jarr _ :: _) => rfl
  | .jarr (.jnum _ :: .jobj :: _) => rfl
  | .jarr (.jnull :: _) => findLonLat_isSome_eq_spine .jnull
  | .jarr (.jbool b :: _) => findLonLat_isSome_eq_spine (.jbool b)
  | .jarr (.jstr s :: _) => findLonLat_isSome_eq_spine (.jstr s)
  | .jarr (.jobj :: _) => findLonLat_isSome_eq_spine .jobj
  | .jarr (.jarr ys :: _) => findLonLat_isSome_eq_spine (.jarr ys)

/-- A successful extraction implies a numeric leaf somewhere in the
tree. -/
theorem hasNumLeaf_of_findLonLat :
    ∀ c : JVal, (findLonLat c).isSome = true → hasNumLeaf c = true
  | .jnull => fun h => by simp [findLonLat] at h
  | .jbool _ => fun h => by simp [findLonLat] at h
  | .jnum _ => fun _ => rfl
  | .jstr _ => fun h => by simp [findLonLat] at h
  | .jobj => fun h => by simp [findLonLat] at h
  | .jarr [] => fun h => by simp [findLonLat] at h
  | .jarr (.jnum _ :: .jnum _ :: _) => fun _ => rfl
  | .jarr (.jnum _ :: []) => fun _ => rfl
  | .jarr (.jnum _ :: .jnull :: _) => fun _ => rfl
  | .jarr (.jnum _ :: .jbool _ :: _) => fun _ => rfl
  | .jarr (.jnum _ :: .jstr _ :: _) => fun _ => rfl
  | .jarr (.jnum _ :: .jarr _ :: _) => fun _ => rfl
  | .jarr (.jnum _ :: .jobj :: _) => fun _ => rfl
  | .jarr (.jnull :: _) => fun h => by simp [findLonLat] at h
  | .jarr (.jbool _ :: _) => fun h => by simp [findLonLat] at h
  | .jarr (.jstr _ :: _) => fun h => by simp [findLonLat] at h
  | .jarr (.jobj :: _) => fun h => by simp [findLonLat] at h
  | .jarr (.jarr ys :: rest) => fun h => by
      have ih := hasNumLeaf_of_findLonLat (.jarr ys)
        (by simpa [findLonLat] using h)
      simp [hasNumLeaf, hasNumLeafList] at ih ⊢
      exact Or.inl ih

/-! ## C1: geometry normalizer -/
/-- C1 counterexample: the input `[[], [1, 2]]` contains a pair of
numbers, yet `findLonLat` returns null — the recursion descends only
into the first element, so a pair that is not on the leftmost spine is
missed, refuting the claim that any input containing a numeric pair
anywhere yields a pair. -/
theorem C1_counterexample :
    hasNumPair (JVal.jarr [JVal.jarr [], JVal.jarr [JVal.jnum 1, JVal.jnum 2]]) = true ∧
    findLonLat (JVal.jarr [JVal.jarr [], JVal.jarr [JVal.jnum 1, JVal.jnum 2]]) = none := by
  exact ⟨rfl, rfl⟩

/-- C1 (amended): `findLonLat` is a total function (never throwing) that
returns a numeric pair exactly when the leftmost first-element descent
described by the spec's algorithm reaches an array whose first two
elements are numbers; and on any input with no numeric leaf at all it
returns null. -/
theorem C1_findLonLat_leftmost (c : JVal) :
    ((findLonLat c).isSome = true ↔ spineHasPair c = true) ∧
    (hasNumLeaf c = false → findLonLat c = none) := by
  constructor
  · rw [findLonLat_isSome_eq_spine]
  · intro h
    cases hf : findLonLat c with
    | none => rfl
    | some p =>
      have := hasNumLeaf_of_findLonLat c (by simp [hf])
      rw [this] at h
      exact absurd h (by simp)

/-- C1 witness: the amended theorem applied to the numeric-leaf-free
input `"x"`. -/
theorem C1_findLonLat_leftmost_witness :
    hasNumLeaf (JVal.jstr "x") = false ∧ findLonLat (JVal.jstr "x") = none :=
  ⟨rfl, (C1_findLonLat_leftmost (JVal.jstr "x")).2 rfl⟩

theorem filter_swap (p q : String → Bool) (l : List String) :
    (l.filter p).filter q = (l.filter q).filter p := by
  induction l with
  | nil => rfl
  | cons x xs ih =>
    by_cases hp : p x <;> by_cases hq : q x <;>
      simp [List.filter_cons, hp, hq, ih]

theorem filter_idem (p : String → Bool) (l : List String) :
    (l.filter p).filter p = l.filter p := by
  induction l with
  | nil => rfl
  | cons x xs ih =>
    by_cases hp : p x <;> simp [List.filter_cons, hp, ih]

theorem mem_firstOccurrences {a : String} : ∀ {l : List String},
    a ∈ firstOccurrences l ↔ a ∈ l := by
  intro l
  induction l with
  | nil => simp [firstOccurrences]
  | cons i r ih =>
    by_cases h : a = i
    · subst h; simp [firstOccurrences]
    · simp [firstOccurrences, h, List.mem_filter, ih]

theorem nodup_firstOccurrences : ∀ (l : List String), (firstOccurrences l).Nodup := by
  intro l
  induction l with
  | nil => simp [firstOccurrences]
  | cons i r ih =>
    simp only [firstOccurrences, List.nodup_cons]
    exact ⟨by simp [List.mem_filter], ih.filter _⟩

theorem firstOccurrences_filter_ne (a : String) : ∀ (l : List String),
    firstOccurrences (l.filter (fun x => x ≠ a)) =
      (firstOccurrences l).filter (fun x => x ≠ a) := by
  intro l
  induction l with
  | nil => rfl
  | cons i r ih =>
    by_cases h : i = a
    · subst h
      have h1 : ((i :: r).filter (fun x => x ≠ i)) =
          r.filter (fun x => x ≠ i) := by simp
      rw [h1, ih, firstOccurrences]
      have h2 : ((i :: (firstOccurrences r).filter (fun j => j ≠ i)).filter
            (fun x => x ≠ i)) =
          ((firstOccurrences r).filter (fun j => j ≠ i)).filter
            (fun x => x ≠ i) := by simp
      rw [h2, filter_idem]
    · have h1 : ((i :: r).filter (fun x => x ≠ a)) =
          i :: r.filter (fun x => x ≠ a) := by simp [h]
      rw [h1, firstOccurrences, ih, firstOccurrences]
      have h2 : ((i :: (firstOccurrences r).filter (fun j => j ≠ i)).filter
            (fun x => x ≠ a)) =
          i :: ((firstOccurrences r).filter (fun j => j ≠ i)).filter
            (fun x => x ≠ a) := by simp [h]
      rw [h2, filter_swap]

theorem myFind?_append {α : Type} (p : α → Bool) : ∀ (l₁ l₂ : List α),
    (l₁ ++ l₂).find? p =
      match l₁.find? p with
      | some x => some x
      | none => l₂.find? p := by
  intro l₁ l₂
  induction l₁ with
  | nil => simp
  | cons x xs ih =>
    by_cases hx : p x <;> simp [List.find?_cons, hx, ih]

theorem lastWithId_cons (d : DisasterEvent) (ds : List DisasterEvent)
    (i : String) :
    lastWithId (d :: ds) i =
      match lastWithId ds i with
      | some e => some e
      | none => if d.id = i then some d else none := by
  unfold lastWithId
  rw [List.reverse_cons, myFind?_append]
  cases ds.reverse.find? (fun d => d.id = i) <;> by_cases h : d.id = i <;>
    simp [List.find?_cons, h]

theorem lastWithId_append (l₁ l₂ : List DisasterEvent) (i : String) :
    lastWithId (l₁ ++ l₂) i =
      match lastWithId l₂ i with
      | some e => some e
      | none => lastWithId l₁ i := by
  unfold lastWithId
  rw [List.reverse_append, myFind?_append]
  cases List.find? (fun d => decide (d.id = i)) l₂.reverse <;> rfl

theorem lastWithId_mem {ds : List DisasterEvent} {i : String}
    {d : DisasterEvent} (h : lastWithId ds i = some d) :
    d ∈ ds ∧ d.id = i := by
  unfold lastWithId at h
  have h1 := List.mem_of_find?_eq_some h
  have h2 := List.find?_some h
  rw [List.mem_reverse] at h1
  exact ⟨h1, by simpa using h2⟩

theorem lastWithId_eq_none {ds : List DisasterEvent} {i : String} :
    lastWithId ds i = none ↔ ∀ d ∈ ds, ¬d.id = i := by
  unfold lastWithId
  rw [List.find?_eq_none]
  constructor
  · intro h d hd; have := h d (List.mem_reverse.mpr hd); simpa using this
  · intro h d hd; have := h d (List.mem_reverse.mp hd); simpa using this

theorem lastWithId_isSome {ds : List DisasterEvent} {i : String} :
    (lastWithId ds i).isSome = true ↔ ∃ d ∈ ds, d.id = i := by
  unfold lastWithId
  rw [List.find?_isSome]
  constructor
  · rintro ⟨d, hd, hp⟩; exact ⟨d, List.mem_reverse.mp hd, by simpa using hp⟩
  · rintro ⟨d, hd, hp⟩; exact ⟨d, List.mem_reverse.mpr hd, by simpa using hp⟩

theorem insertLWW_pos {m : List (String × DisasterEvent)}
    {d : DisasterEvent} (h : d.id ∈ keysOf m) :
    insertLWW m d = m.map (fun p => if p.1 = d.id then (p.1, d) else p) := by
  unfold insertLWW
  have : m.any (fun p => p.1 = d.id) = true := by
    rw [List.any_eq_true]
    rcases List.mem_map.mp h with ⟨p, hp, hid⟩
    exact ⟨p, hp, by simp [hid]⟩
  rw [this]
  simp

theorem insertLWW_neg {m : List (String × DisasterEvent)}
    {d : DisasterEvent} (h : ¬d.id ∈ keysOf m) :
    insertLWW m d = m ++ [(d.id, d)] := by
  unfold insertLWW
  have : m.any (fun p => p.1 = d.id) = false := by
    rw [List.any_eq_false]
    intro p hp
    simp only [decide_eq_true_eq]
    intro hid
    exact h (List.mem_map.mpr ⟨p, hp, hid⟩)
  rw [this]
  simp

theorem foldl_insertLWW_eq :
    ∀ (ds : List DisasterEvent) (m : List (String × DisasterEvent)),
    (∀ p ∈ m, p.2.id = p.1) →
    ds.foldl insertLWW m = m.map (updEntry ds) ++ newEntries ds (keysOf m) := by
  intro ds
  induction ds with
  | nil =>
    intro m _
    have h1 : m.map (updEntry []) = m := by
      conv_rhs => rw [← List.map_id m]
      apply List.map_congr_left
      intro p _
      simp [updEntry, lastWithId]
    simp [h1, newEntries, firstOccurrences]
  | cons d rest ih =>
    intro m hm
    rw [List.foldl_cons]
    by_cases hmem : d.id ∈ keysOf m
    · -- update-in-place branch
      rw [insertLWW_pos hmem]
      have hm' : ∀ p ∈ m.map (fun p => if p.1 = d.id then (p.1, d) else p),
          p.2.id = p.1 := by
        intro p hp
        rcases List.mem_map.mp hp with ⟨q, hq, rfl⟩
        by_cases hqd : q.1 = d.id
        · simp [hqd, hm q hq]
        · simp [hqd, hm q hq]
      rw [ih _ hm']
      have hkeys : keysOf (m.map (fun p => if p.1 = d.id then (p.1, d) else p)) =
          keysOf m := by
        unfold keysOf
        rw [List.map_map]
        apply List.map_congr_left
        intro p _
        by_cases hqd : p.1 = d.id <;> simp [hqd]
      rw [hkeys]
      congr 1
      · -- updated-map part
        rw [List.map_map]
        apply List.map_congr_left
        intro p _
        by_cases hqd : p.1 = d.id
        · simp only [Function.comp_apply, hqd, if_true, updEntry,
            lastWithId_cons]
          cases lastWithId rest d.id <;> simp [hqd]
        · have hdp : ¬d.id = p.1 := fun hh => hqd hh.symm
          simp only [Function.comp_apply, hqd, if_false, updEntry,
            lastWithId_cons]
          cases h : lastWithId rest p.1 <;> simp [hdp]
      · -- new-entry part
        unfold newEntries
        have hfil : ((d :: rest).map DisasterEvent.id).filter
              (fun i => ¬i ∈ keysOf m) =
            (rest.map DisasterEvent.id).filter (fun i => ¬i ∈ keysOf m) := by
          simp [List.filter_cons, hmem]
        rw [hfil]
        apply List.filterMap_congr
        intro k hk
        have hk1 : k ∈ (rest.map DisasterEvent.id).filter
            (fun i => ¬i ∈ keysOf m) := mem_firstOccurrences.mp hk
        have hk2 : ¬k ∈ keysOf m := by
          have := List.of_mem_filter hk1
          simpa using this
        have hkd : ¬d.id = k := fun hh => hk2 (hh ▸ hmem)
        rw [lastWithId_cons]
        cases lastWithId rest k <;> simp [hkd]
    · -- append branch
      rw [insertLWW_neg hmem]
      have hm' : ∀ p ∈ m ++ [(d.id, d)], p.2.id = p.1 := by
        intro p hp
        rcases List.mem_append.mp hp with h1 | h1
        · exact hm p h1
        · simp at h1; subst h1; rfl
      rw [ih _ hm']
      have hkeys : keysOf (m ++ [(d.id, d)]) = keysOf m ++ [d.id] := by
        simp [keysOf]
      rw [hkeys, List.map_append, List.append_assoc]
      congr 1
      · -- old entries updated
        apply List.map_congr_left
        intro p hp
        have hpd : ¬p.1 = d.id := by
          intro hh
          exact hmem (hh ▸ List.mem_map.mpr ⟨p, hp, rfl⟩)
        have hdp : ¬d.id = p.1 := fun hh => hpd hh.symm
        simp only [updEntry, lastWithId_cons]
        cases lastWithId rest p.1 <;> simp [hdp]
      · -- the fresh entry plus remaining new entries
        unfold newEntries
        have hfil : ((d :: rest).map DisasterEvent.id).filter
              (fun i => ¬i ∈ keysOf m) =
            d.id :: (rest.map DisasterEvent.id).filter
              (fun i => ¬i ∈ keysOf m) := by
          simp [List.filter_cons, hmem]
        rw [hfil]
        have hfo : firstOccurrences (d.id ::
              (rest.map DisasterEvent.id).filter (fun i => ¬i ∈ keysOf m)) =
            d.id :: (firstOccurrences ((rest.map DisasterEvent.id).filter
              (fun i => ¬i ∈ keysOf m))).filter (fun j => j ≠ d.id) := rfl
        rw [hfo]
        have hcons : lastWithId (d :: rest) d.id =
            some ((lastWithId rest d.id).getD d) := by
          rw [lastWithId_cons]
          cases lastWithId rest d.id <;> simp
        rw [List.filterMap_cons, hcons]
        simp only [Option.map_some, List.map_cons, List.map_nil,
          List.singleton_append]
        congr 1
        have hfil2 : (rest.map DisasterEvent.id).filter
              (fun i => ¬i ∈ keysOf m ++ [d.id]) =
            ((rest.map DisasterEvent.id).filter
              (fun i => ¬i ∈ keysOf m)).filter (fun j => j ≠ d.id) := by
          rw [List.filter_filter]
          apply List.filter_congr
          intro x _
          by_cases hx1 : x ∈ keysOf m <;> by_cases hx2 : x = d.id <;>
            simp [hx1, hx2]
        rw [hfil2, firstOccurrences_filter_ne]
        apply List.filterMap_congr
        intro k hk
        have hkd : ¬d.id = k := by
          have := List.of_mem_filter hk
          simp only [ne_eq, decide_not, Bool.not_eq_eq_eq_not, Bool.not_true,
            decide_eq_false_iff_not] at this
          exact fun hh => this hh.symm
        rw [lastWithId_cons]
        cases lastWithId rest k <;> simp [hkd]

theorem mergeById_eq (ds : List DisasterEvent) :
    mergeById ds =
      (firstOccurrences (ds.map DisasterEvent.id)).filterMap
        (lastWithId ds) := by
  unfold mergeById
  rw [foldl_insertLWW_eq ds [] (by simp)]
  have hfil : (ds.map DisasterEvent.id).filter
        (fun i => ¬i ∈ ([] : List String)) =
      ds.map DisasterEvent.id := by
    apply List.filter_eq_self.mpr
    intro a _
    simp
  simp only [newEntries, keysOf, List.map_nil, List.nil_append]
  rw [hfil, List.map_filterMap]
  apply List.filterMap_congr
  intro k _
  cases lastWithId ds k <;> simp

theorem filterMap_lastWithId_filter (ds : List DisasterEvent) (i : String) :
    ∀ ks : List String, ks.Nodup →
    ((ks.filterMap (lastWithId ds)).filter (fun d => d.id = i)) =
      if i ∈ ks then (lastWithId ds i).toList else [] := by
  intro ks
  induction ks with
  | nil => simp
  | cons k r ih =>
    intro hnd
    rcases List.nodup_cons.mp hnd with ⟨hkr, hndr⟩
    cases hlk : lastWithId ds k with
    | none =>
      rw [List.filterMap_cons, hlk]
      rw [ih hndr]
      by_cases hik : i = k
      · subst hik
        simp [hkr, hlk]
      · simp [hik]
    | some e =>
      have he := lastWithId_mem hlk
      rw [List.filterMap_cons, hlk]
      by_cases hik : i = k
      · subst hik
        simp [List.filter_cons, he.2, ih hndr, hkr, hlk]
      · have hki : ¬k = i := fun hh => hik hh.symm
        simp [List.filter_cons, he.2, hki, hik, ih hndr]

theorem mergeById_filter (ds : List DisasterEvent) (i : String) :
    (mergeById ds).filter (fun d => d.id = i) = (lastWithId ds i).toList := by
  rw [mergeById_eq,
    filterMap_lastWithId_filter ds i _ (nodup_firstOccurrences _)]
  by_cases h : i ∈ firstOccurrences (ds.map DisasterEvent.id)
  · simp [h]
  · have h2 : ¬i ∈ ds.map DisasterEvent.id := fun hh =>
      h (mem_firstOccurrences.mpr hh)
    have h3 : lastWithId ds i = none := by
      rw [lastWithId_eq_none]
      intro d hd hdi
      exact h2 (List.mem_map.mpr ⟨d, hd, hdi⟩)
    simp [h, h3]

theorem mergeById_ids (ds : List DisasterEvent) :
    (mergeById ds).map DisasterEvent.id =
      firstOccurrences (ds.map DisasterEvent.id) := by
  rw [mergeById_eq, List.map_filterMap]
  have h : ∀ k ∈ firstOccurrences (ds.map DisasterEvent.id),
      (lastWithId ds k).map DisasterEvent.id = some k := by
    intro k hk
    have hk2 : k ∈ ds.map DisasterEvent.id := mem_firstOccurrences.mp hk
    rcases List.mem_map.mp hk2 with ⟨d, hd, hdi⟩
    have hsome : (lastWithId ds k).isSome = true :=
      lastWithId_isSome.mpr ⟨d, hd, hdi⟩
    cases hlk : lastWithId ds k with
    | none => rw [hlk] at hsome; simp at hsome
    | some e => simp [(lastWithId_mem hlk).2]
  rw [List.filterMap_congr h]
  induction firstOccurrences (ds.map DisasterEvent.id) with
  | nil => rfl
  | cons k r ih => simp [List.filterMap_cons, ih]

/-- Last-of-id entries always survive the merge. -/
theorem mem_mergeById_of_lastWithId {ds : List DisasterEvent}
    {d : DisasterEvent} (h : lastWithId ds d.id = some d) :
    d ∈ mergeById ds := by
  have hf := mergeById_filter ds d.id
  rw [h] at hf
  have : d ∈ (mergeById ds).filter (fun x => x.id = d.id) := by
    rw [hf]; simp
  exact List.mem_of_mem_filter this

/-! ## C4: merger/deduplicator -/
/-- C4: merging is keyed by event id with last-writer-wins — the merged
output lists ids in first-occurrence order, and for every id the single
surviving entry is the last entry carrying that id (so entries with the
same id collapse to the later one, while entries with distinct ids all
coexist, whatever their coordinates). -/
theorem C4_merge_lastWriterWins (ds : List DisasterEvent) :
    ((mergeById ds).map DisasterEvent.id =
      firstOccurrences (ds.map DisasterEvent.id)) ∧
    (∀ i : String, (mergeById ds).filter (fun d => d.id = i) =
      (lastWithId ds i).toList) ∧
    (∀ d ∈ ds, ∃ e, e ∈ mergeById ds ∧ e.id = d.id) := by
  refine ⟨mergeById_ids ds, fun i => mergeById_filter ds i, ?_⟩
  intro d hd
  have hsome : (lastWithId ds d.id).isSome = true :=
    lastWithId_isSome.mpr ⟨d, hd, rfl⟩
  cases hlk : lastWithId ds d.id with
  | none => rw [hlk] at hsome; simp at hsome
  | some e =>
    exact ⟨e, mem_mergeById_of_lastWithId
      ((lastWithId_mem hlk).2 ▸ hlk), (lastWithId_mem hlk).2⟩

/-- C4 witness: on `[A, B, A2]` with `A.id = A2.id` and identical
coordinates across ids, the merge keeps ids in first-occurrence order,
keeps exactly the later same-id entry and keeps the distinct-id entry. -/
theorem C4_merge_lastWriterWins_witness :
    ((mergeById [mergeSampleA, mergeSampleB, mergeSampleA2]).map
        DisasterEvent.id =
      firstOccurrences ([mergeSampleA, mergeSampleB, mergeSampleA2].map
        DisasterEvent.id)) ∧
    ((mergeById [mergeSampleA, mergeSampleB, mergeSampleA2]).filter
        (fun d => d.id = "eonet-1") =
      (lastWithId [mergeSampleA, mergeSampleB, mergeSampleA2]
        "eonet-1").toList) ∧
    (∃ e, e ∈ mergeById [mergeSampleA, mergeSampleB, mergeSampleA2] ∧
      e.id = mergeSampleB.id) :=
  ⟨(C4_merge_lastWriterWins [mergeSampleA, mergeSampleB, mergeSampleA2]).1,
   (C4_merge_lastWriterWins [mergeSampleA, mergeSampleB, mergeSampleA2]).2.1
     "eonet-1",
   (C4_merge_lastWriterWins
     [mergeSampleA, mergeSampleB, mergeSampleA2]).2.2 mergeSampleB
     (by decide)⟩

/-! ## C2: partial-failure-tolerant aggregation -/
/-- C2 (amended): the aggregation call resolves (never rejects) for
every combination of adapter outcomes, its environmental slot carries
the air-quality adapter's records, and its disasters slot contains every
record of the three disaster adapters that is the last record with its
id — in particular every record of the declarations adapter that is the
last of its id within that adapter's output, whatever the seismic
adapter's outcome. -/
theorem C2_aggregation_partial_failure (now : String) (iso : ℚ → String)
    (nowMs : ℚ) (rand : ℕ → ℚ × ℚ) (oE : FetchOutcome EonetPayload)
    (oU : FetchOutcome USGSPayload) (oF : FetchOutcome FEMAPayload)
    (oA : FetchOutcome OpenAQPayload) :
    ∃ r : LiveDataResult,
      fetchLiveData now iso nowMs rand oE oU oF oA = .ok r ∧
      (∀ d : DisasterEvent,
        lastWithId (fetchEonetDisasters now oE ++
          fetchUSGSEarthquakes iso nowMs oU ++
          fetchFEMADisastersAsEvents rand now oF) d.id = some d →
        d ∈ r.disasters) ∧
      (∀ d : DisasterEvent,
        lastWithId (fetchFEMADisastersAsEvents rand now oF) d.id = some d →
        d ∈ r.disasters) ∧
      r.environmental = fetchOpenAQ now oA := by
  refine ⟨⟨mergeById (fetchEonetDisasters now oE ++
      fetchUSGSEarthquakes iso nowMs oU ++
      fetchFEMADisastersAsEvents rand now oF),
    fetchOpenAQ now oA, []⟩, rfl, ?_, ?_, rfl⟩
  · intro d hd
    exact mem_mergeById_of_lastWithId hd
  · intro d hd
    apply mem_mergeById_of_lastWithId
    rw [lastWithId_append, hd]

/-- C2 witness: the seismic adapter fails by transport error, the other
adapters succeed, and the aggregation resolves with the natural-event
adapter's record in the merged disasters. -/
theorem C2_aggregation_partial_failure_witness :
    ∃ r : LiveDataResult,
      fetchLiveData "t0" isoStub 0 randHalf eonetSingleOutcome
        .netError emptyFEMAOutcome emptyOpenAQOutcome = .ok r ∧
      eonetAlphaEvent ∈ r.disasters := by
  obtain ⟨r, h1, h2, _, _⟩ := C2_aggregation_partial_failure "t0" isoStub 0
    randHalf eonetSingleOutcome .netError emptyFEMAOutcome emptyOpenAQOutcome
  exact ⟨r, h1, h2 eonetAlphaEvent (by decide)⟩

/-- C2 counterexample: the seismic adapter fails by transport error, the
declarations adapter succeeds, and the natural-event adapter succeeds
with two events sharing a native id; the adapter produces both records,
yet the first is absent from the aggregated output — id-keyed
deduplication overwrites it — refuting "contains every record produced
by the succeeding adapters". -/
theorem C2_counterexample :
    eonetAlphaEvent ∈ fetchEonetDisasters "t0" eonetDupOutcome ∧
    ¬eonetAlphaEvent ∈ ((fetchLiveData "t0" isoStub 0 randHalf
        eonetDupOutcome .netError emptyFEMAOutcome
        emptyOpenAQOutcome).toOption.getD ⟨[], [], []⟩).disasters := by
  decide

/-- C3 (amended): on every failure mode, the natural-event, seismic,
declaration and air-quality adapters catch internally and return the
empty list, and the failing EONET segment of the hazards module
contributes nothing; the infrastructure adapter also never throws, but
instead of an empty list it substitutes the fixed two-site mock
fallback. -/
theorem C3_adapter_failure_behavior (now nowIso : String) (iso : ℚ → String)
    (nowMs : ℚ) (rand : ℕ → ℚ × ℚ) (irand : ℕ → ℚ)
    (cleanTitle : String → String) (oE : FetchOutcome EonetPayload)
    (oU : FetchOutcome USGSPayload) (oF : FetchOutcome FEMAPayload)
    (oA : FetchOutcome OpenAQPayload) (oE2 : FetchOutcome Eonet2Payload)
    (oI : FetchOutcome OverpassPayload) :
    (isFailureOutcome oE = true → fetchEonetDisasters now oE = []) ∧
    (isFailureOutcome oU = true → fetchUSGSEarthquakes iso nowMs oU = []) ∧
    (isFailureOutcome oF = true →
      fetchFEMADisastersAsEvents rand now oF = []) ∧
    (isFailureOutcome oA = true → fetchOpenAQ now oA = []) ∧
    (isFailureOutcome oE2 = true →
      fetchHazardEvents cleanTitle nowIso rand irand oE2 oF =
        hazardFemaSegment rand irand nowIso oF) ∧
    (isFailureOutcome oI = true →
      fetchInfrastructureSites nowIso oI = mockInfrastructureSites nowIso) := by
  refine ⟨?_, ?_, ?_, ?_, ?_, ?_⟩ <;> intro h
  · cases oE with
    | netError => rfl
    | response ok body =>
      cases ok
      · rfl
      · cases body with
        | error e => rfl
        | ok j => simp [isFailureOutcome] at h
  · cases oU with
    | netError => rfl
    | response ok body =>
      cases ok
      · rfl
      · cases body with
        | error e => rfl
        | ok j => simp [isFailureOutcome] at h
  · cases oF with
    | netError => rfl
    | response ok body =>
      cases ok
      · rfl
      · cases body with
        | error e => rfl
        | ok j => simp [isFailureOutcome] at h
  · cases oA with
    | netError => rfl
    | response ok body =>
      cases ok
      · rfl
      · cases body with
        | error e => rfl
        | ok j => simp [isFailureOutcome] at h
  · cases oE2 with
    | netError => rfl
    | response ok body =>
      cases ok
      · rfl
      · cases body with
        | error e => rfl
        | ok j => simp [isFailureOutcome] at h
  · cases oI with
    | netError => rfl
    | response ok body =>
      cases ok
      · rfl
      · cases body with
        | error e => rfl
        | ok j => simp [isFailureOutcome] at h

/-- C3 witness: the amended theorem applied to network errors on the
natural-event and infrastructure fetches. -/
theorem C3_adapter_failure_behavior_witness :
    fetchEonetDisasters "t0" .netError = [] ∧
    fetchInfrastructureSites "t0" .netError =
      mockInfrastructureSites "t0" :=
  ⟨(C3_adapter_failure_behavior "t0" "t0" isoStub 0 randHalf (fun _ => 0)
      (fun t => t) .netError .netError .netError .netError .netError
      .netError).1 rfl,
   (C3_adapter_failure_behavior "t0" "t0" isoStub 0 randHalf (fun _ => 0)
      (fun t => t) .netError .netError .netError .netError .netError
      .netError).2.2.2.2.2 rfl⟩

/-- C3 counterexample: on a network error the infrastructure adapter
returns the two mock sites, not an empty list — substituted records,
refuting the empty-on-failure contract for that adapter. -/
theorem C3_counterexample :
    fetchInfrastructureSites "t0" .netError = mockInfrastructureSites "t0" ∧
    mockInfrastructureSites "t0" ≠ [] := by
  exact ⟨rfl, by decide⟩

/-! ## C5: classifier -/
/-- C5: the classifier lower-cases its input and applies ordered
substring rules with first match winning — flood wins over everything,
fire over earthquake, and Storm is the default — and on the concrete
fixtures "Major Flooding Event" classifies as Flood while
"Severe Storms" falls through to Storm. -/
theorem C5_classifier_ordered_rules :
    (∀ t : String, strIncludes (jsToLower t) "flood" = true →
      getFEMACategory t = .Flood) ∧
    (∀ t : String, strIncludes (jsToLower t) "flood" = false →
      strIncludes (jsToLower t) "fire" = true →
      getFEMACategory t = .Wildfire) ∧
    (∀ t : String, strIncludes (jsToLower t) "flood" = false →
      strIncludes (jsToLower t) "fire" = false →
      strIncludes (jsToLower t) "earthquake" = true →
      getFEMACategory t = .Earthquake) ∧
    (∀ t : String, strIncludes (jsToLower t) "flood" = false →
      strIncludes (jsToLower t) "fire" = false →
      strIncludes (jsToLower t) "earthquake" = false →
      getFEMACategory t = .Storm) ∧
    getFEMACategory "Major Flooding Event" = .Flood ∧
    getFEMACategory "Severe Storms" = .Storm := by
  refine ⟨?_, ?_, ?_, ?_, by decide, by decide⟩
  · intro t h1
    simp [getFEMACategory, h1]
  · intro t h1 h2
    simp [getFEMACategory, h1, h2]
  · intro t h1 h2 h3
    simp [getFEMACategory, h1, h2, h3]
  · intro t h1 h2 h3
    simp [getFEMACategory, h1, h2, h3]

/-- C5 witness: the rule conjuncts applied to the two fixture strings. -/
theorem C5_classifier_ordered_rules_witness :
    getFEMACategory "Major Flooding Event" = Category.Flood ∧
    getFEMACategory "Severe Storms" = Category.Storm :=
  ⟨C5_classifier_ordered_rules.1 "Major Flooding Event" (by decide),
   C5_classifier_ordered_rules.2.2.2.1 "Severe Storms" (by decide)
     (by decide) (by decide)⟩

/-- C6 counterexample: a finite out-of-range coordinate pair
(lat 200, lng 500) passes the adapter's finiteness check, reaches the
merger and shows up in the aggregated output, refuting the claimed
range invariant lat within [-90, 90]. -/
theorem C6_counterexample :
    latsOf ((fetchLiveData "t0" isoStub 0 randHalf eonetOutOfRangeOutcome
        emptyUSGSOutcome emptyFEMAOutcome
        emptyOpenAQOutcome).toOption.getD ⟨[], [], []⟩).disasters = [200] ∧
    ¬((200 : ℚ) ≤ 90) := by
  exact ⟨by decide, by decide⟩

/-- C6 (amended): the only coordinate filters before the merger are the
EONET adapter's finiteness check (identically true for JSON numbers) and
the air-quality adapter's drop of records at exactly (0, 0); no range
check is applied — whatever pair the normalizer extracts is emitted
verbatim as (lng, lat). -/
theorem C6_coordinate_handling (now : String) (o : FetchOutcome OpenAQPayload) :
    (∀ x ∈ fetchOpenAQ now o, ¬(x.lat = 0 ∧ x.lng = 0)) ∧
    (∀ (now2 : String) (idx : ℕ) (ev : EonetEvent) (d : DisasterEvent),
      eonetEventToDisaster now2 idx ev = some d →
      ∃ geom, ev.geometry.getLast? = some geom ∧
        findLonLat geom.coordinates = some (d.lng, d.lat)) := by
  constructor
  · intro x hx
    cases o with
    | netError => simp [fetchOpenAQ, fetchOpenAQBody, catchList] at hx
    | response ok body =>
      cases ok with
      | false => simp [fetchOpenAQ, fetchOpenAQBody, catchList] at hx
      | true =>
        cases body with
        | error e => simp [fetchOpenAQ, fetchOpenAQBody, catchList] at hx
        | ok json =>
          simp only [fetchOpenAQ, fetchOpenAQBody, catchList] at hx
          have := List.of_mem_filter hx
          simp only [Bool.or_eq_true, decide_eq_true_eq] at this
          rintro ⟨h1, h2⟩
          rcases this with h | h <;> exact h (by assumption)
  · intro now2 idx ev d h
    unfold eonetEventToDisaster at h
    cases hg : ev.geometry.getLast? with
    | none => rw [hg] at h; exact absurd h (by simp)
    | some geom =>
      rw [hg] at h
      by_cases ht : truthy geom.coordinates
      · simp only [ht, not_true_eq_false, if_false] at h
        cases hf : findLonLat geom.coordinates with
        | none => rw [hf] at h; exact absurd h (by simp)
        | some p =>
          obtain ⟨lon, lat⟩ := p
          rw [hf] at h
          simp only [Option.some_inj] at h
          refine ⟨geom, rfl, ?_⟩
          rw [hf, ← h]
      · simp [ht] at h

/-- C6 witness: the amended theorem's EONET conjunct applied to the
Alpha fixture, whose extracted pair is (10, 20). -/
theorem C6_coordinate_handling_witness :
    ∃ geom, eonetDupEvent1.geometry.getLast? = some geom ∧
      findLonLat geom.coordinates =
        some (eonetAlphaEvent.lng, eonetAlphaEvent.lat) :=
  (C6_coordinate_handling "t0" emptyOpenAQOutcome).2 "t0" 0 eonetDupEvent1
    eonetAlphaEvent (by decide)

/-! ## C10: seismic adapter -/
/-- C10: on a parsed feature list the seismic adapter emits exactly one
event per feature in order (none dropped); a feature without geometry is
emitted at (0, 0); a missing properties object, missing magnitude or
zero magnitude gives effective magnitude 0; severity is High at
magnitude at least 5, Medium at least 4, otherwise Low (so magnitude 0
is Low); and a missing time is rendered at the current epoch time. -/
theorem C10_usgs_adapter (iso : ℚ → String) (nowMs : ℚ)
    (fs : List USGSFeature) :
    (fetchUSGSEarthquakes iso nowMs (.response true (.ok ⟨some fs⟩)) =
      fs.enum.map (fun p => usgsFeatureToDisaster iso nowMs p.1 p.2)) ∧
    ((fetchUSGSEarthquakes iso nowMs
        (.response true (.ok ⟨some fs⟩))).length = fs.length) ∧
    (∀ (i : ℕ) (f : USGSFeature), f.geometry = none →
      (usgsFeatureToDisaster iso nowMs i f).lat = 0 ∧
      (usgsFeatureToDisaster iso nowMs i f).lng = 0) ∧
    (∀ f : USGSFeature,
      (f.properties = none ∨
        ∃ p, f.properties = some p ∧ (p.mag = none ∨ p.mag = some 0)) →
      usgsMag f = 0) ∧
    (∀ (i : ℕ) (f : USGSFeature),
      (usgsFeatureToDisaster iso nowMs i f).severity =
        usgsSeverity (usgsMag f)) ∧
    (∀ m : ℚ, (5 ≤ m → usgsSeverity m = .High) ∧
      (4 ≤ m → m < 5 → usgsSeverity m = .Medium) ∧
      (m < 4 → usgsSeverity m = .Low)) ∧
    (∀ (i : ℕ) (f : USGSFeature),
      (f.properties = none ∨ ∃ p, f.properties = some p ∧ p.time = none) →
      (usgsFeatureToDisaster iso nowMs i f).timestamp = iso nowMs) := by
  refine ⟨rfl, ?_, ?_, ?_, ?_, ?_, ?_⟩
  · simp [fetchUSGSEarthquakes, fetchUSGSEarthquakesBody, catchList]
  · intro i f h
    simp [usgsFeatureToDisaster, h]
  · intro f h
    rcases h with h | ⟨p, hp, hm⟩
    · simp [usgsMag, h]
    · rcases hm with hm | hm <;> simp [usgsMag, hp, hm]
  · intro i f
    rfl
  · intro m
    refine ⟨?_, ?_, ?_⟩
    · intro h5
      simp [usgsSeverity, h5]
    · intro h4 h5
      have : ¬(5 ≤ m) := by linarith
      simp [usgsSeverity, this, h4]
    · intro h4
      have h5 : ¬(5 ≤ m) := by linarith
      have h4' : ¬(4 ≤ m) := by linarith
      simp [usgsSeverity, h5, h4']
  · intro i f h
    rcases h with h | ⟨p, hp, ht⟩
    · simp [usgsFeatureToDisaster, usgsTime, h]
    · simp [usgsFeatureToDisaster, usgsTime, hp, ht]

/-- C10 witness: the geometry-less feature lands at (0, 0) with
magnitude 0 and severity Low at the current time, and the thresholds
evaluate at magnitude 6. -/
theorem C10_usgs_adapter_witness :
    ((usgsFeatureToDisaster isoStub 0 0 usgsFeatureNoGeom).lat = 0 ∧
      (usgsFeatureToDisaster isoStub 0 0 usgsFeatureNoGeom).lng = 0) ∧
    usgsMag usgsFeatureNoGeom = 0 ∧
    usgsSeverity 6 = Severity.High ∧
    (usgsFeatureToDisaster isoStub 0 0 usgsFeatureNoGeom).timestamp =
      isoStub 0 :=
  ⟨(C10_usgs_adapter isoStub 0 []).2.2.1 0 usgsFeatureNoGeom rfl,
   (C10_usgs_adapter isoStub 0 []).2.2.2.1 usgsFeatureNoGeom (Or.inl rfl),
   ((C10_usgs_adapter isoStub 0 []).2.2.2.2.2.1 6).1 (by decide),
   (C10_usgs_adapter isoStub 0 []).2.2.2.2.2.2 0 usgsFeatureNoGeom
     (Or.inl rfl)⟩

/-! ## C9: overlay composer -/
/-- C9: the composer is a pure per-record mapping — exactly one point
per hazard and per site, each point carrying the clamped linear hazard
size min(6, 2 + intensity/2), the fixed category color, the fixed
status color and status size tier, with tiers ordered
Operational < Degraded < Offline. -/
theorem C9_overlay_composer (hazards : List HazardEvent)
    (sites : List InfrastructureSite) :
    ((transformHazards hazards).length = hazards.length) ∧
    ((transformInfrastructure sites).length = sites.length) ∧
    (∀ p ∈ transformHazards hazards, ∃ h, h ∈ hazards ∧
      p.original = Sum.inl h ∧ p.size = min 6 (2 + h.intensity / 2) ∧
      p.color = hazardColor h.category ∧ p.kind = .hazard ∧
      p.lat = h.lat ∧ p.lng = h.lng) ∧
    (∀ p ∈ transformInfrastructure sites, ∃ s, s ∈ sites ∧
      p.original = Sum.inr s ∧ p.size = infraSize s.status ∧
      p.color = infraColor s.status ∧ p.kind = .infrastructure) ∧
    (infraSize .Operational < infraSize .Degraded ∧
      infraSize .Degraded < infraSize .Offline) := by
  refine ⟨?_, ?_, ?_, ?_, ?_, ?_⟩
  · simp [transformHazards]
  · simp [transformInfrastructure]
  · intro p hp
    rcases List.mem_map.mp hp with ⟨h, hh, rfl⟩
    exact ⟨h, hh, rfl, rfl, rfl, rfl, rfl, rfl⟩
  · intro p hp
    rcases List.mem_map.mp hp with ⟨s, hs, rfl⟩
    exact ⟨s, hs, rfl, rfl, rfl, rfl⟩
  · norm_num [infraSize]
  · norm_num [infraSize]

/-- C9 witness: the per-point conjuncts applied to singleton inputs. -/
theorem C9_overlay_composer_witness :
    (∃ h, h ∈ [sampleHazard] ∧ samplePoint.original = Sum.inl h ∧
      samplePoint.size = min 6 (2 + h.intensity / 2) ∧
      samplePoint.color = hazardColor h.category ∧
      samplePoint.kind = .hazard ∧ samplePoint.lat = h.lat ∧
      samplePoint.lng = h.lng) ∧
    (∃ s, s ∈ [sampleSite] ∧ sampleSitePoint.original = Sum.inr s ∧
      sampleSitePoint.size = infraSize s.status ∧
      sampleSitePoint.color = infraColor s.status ∧
      sampleSitePoint.kind = .infrastructure) :=
  ⟨(C9_overlay_composer [sampleHazard] []).2.2.1 samplePoint
      (List.mem_singleton.mpr rfl),
   (C9_overlay_composer [] [sampleSite]).2.2.2.1 sampleSitePoint
      (List.mem_singleton.mpr rfl)⟩

/-! ## C7: spherical centroid safety -/
/-- C7: the spherical-centroid computation abandons an empty vertex list
and a zero-length mean (signalling no centroid), and whenever it does
return a pair, the arcsin argument lies within [-1, 1] (so the latitude
is a genuine principal value, never NaN) and the returned latitude lies
in [-90, 90]. -/
theorem C7_spherical_centroid (pts : List (ℝ × ℝ)) :
    (sphericalCentroid [] = none) ∧
    (centroidLen pts = 0 → sphericalCentroid pts = none) ∧
    (∀ la lo : ℝ, sphericalCentroid pts = some (la, lo) →
      |centroidSumZ pts / centroidLen pts| ≤ 1 ∧
      la = Real.arcsin (centroidSumZ pts / centroidLen pts) * 180 /
        Real.pi ∧
      -90 ≤ la ∧ la ≤ 90) := by
  refine ⟨by simp [sphericalCentroid], ?_, ?_⟩
  · intro h
    simp [sphericalCentroid, h]
  · intro la lo h
    unfold sphericalCentroid at h
    by_cases h1 : pts = []
    · simp [h1] at h
    · simp only [h1, if_false] at h
      by_cases h2 : centroidLen pts = 0
      · simp [h2] at h
      · simp only [h2, if_false, Option.some_inj, Prod.mk.injEq] at h
        obtain ⟨hla, hlo⟩ := h
        have hlen_nonneg : 0 ≤ centroidLen pts := Real.sqrt_nonneg _
        have hlen_pos : 0 < centroidLen pts :=
          lt_of_le_of_ne hlen_nonneg (Ne.symm h2)
        have habs : |centroidSumZ pts| ≤ centroidLen pts := by
          rw [← Real.sqrt_sq_eq_abs]
          apply Real.sqrt_le_sqrt
          nlinarith [sq_nonneg (centroidSumX pts), sq_nonneg (centroidSumY pts)]
        have hq : |centroidSumZ pts / centroidLen pts| ≤ 1 := by
          rw [abs_div, abs_of_pos hlen_pos]
          exact div_le_one_of_le₀ habs hlen_nonneg
        refine ⟨hq, hla.symm, ?_, ?_⟩
        · rw [← hla]
          have harc : -(Real.pi / 2) ≤
              Real.arcsin (centroidSumZ pts / centroidLen pts) :=
            Real.neg_pi_div_two_le_arcsin _
          have hpi : 0 < Real.pi := Real.pi_pos
          have h90 : -(Real.pi / 2) * 180 / Real.pi = -90 := by
            field_simp
            ring
          calc (-90 : ℝ) = -(Real.pi / 2) * 180 / Real.pi := h90.symm
            _ ≤ _ := by
              apply (div_le_div_iff_of_pos_right hpi).mpr
              exact mul_le_mul_of_nonneg_right harc (by norm_num)
        · rw [← hla]
          have harc : Real.arcsin (centroidSumZ pts / centroidLen pts) ≤
              Real.pi / 2 := Real.arcsin_le_pi_div_two _
          have hpi : 0 < Real.pi := Real.pi_pos
          have h90 : Real.pi / 2 * 180 / Real.pi = 90 := by
            field_simp
            ring
          calc Real.arcsin (centroidSumZ pts / centroidLen pts) * 180 /
                Real.pi ≤ Real.pi / 2 * 180 / Real.pi := by
                apply (div_le_div_iff_of_pos_right hpi).mpr
                exact mul_le_mul_of_nonneg_right harc (by norm_num)
            _ = 90 := h90

/-- C7 witness: two antipodal equator points give a zero-length mean and
no centroid; the single point (0, 0) gives a defined in-range result. -/
theorem C7_spherical_centroid_witness :
    sphericalCentroid [((0:ℝ), 0), (180, 0)] = none ∧
    (|centroidSumZ [((0:ℝ), 0)] / centroidLen [((0:ℝ), 0)]| ≤ 1 ∧
      (0:ℝ) = Real.arcsin (centroidSumZ [((0:ℝ), 0)] /
        centroidLen [((0:ℝ), 0)]) * 180 / Real.pi ∧
      (-90:ℝ) ≤ 0 ∧ (0:ℝ) ≤ 90) := by
  have h180 : (180:ℝ) * Real.pi / 180 = Real.pi := by ring
  have hlen0 : centroidLen [((0:ℝ), 0), (180, 0)] = 0 := by
    simp [centroidLen, centroidSumX, centroidSumY, centroidSumZ, h180,
      Real.cos_pi, Real.sin_pi]
  have hx : centroidSumX [(0 : ℝ × ℝ)] = 1 := by simp [centroidSumX]
  have hy : centroidSumY [(0 : ℝ × ℝ)] = 0 := by simp [centroidSumY]
  have hz : centroidSumZ [(0 : ℝ × ℝ)] = 0 := by simp [centroidSumZ]
  have hlen1 : centroidLen [(0 : ℝ × ℝ)] = 1 := by
    simp [centroidLen, hx, hy, hz]
  have hsome : sphericalCentroid [(0 : ℝ × ℝ)] = some 0 := by
    simp [sphericalCentroid, hlen1, hz, hy, hx, atan2, Real.arcsin_zero,
      Real.arctan_zero]
  exact ⟨(C7_spherical_centroid [((0:ℝ), 0), (180, 0)]).2.1 hlen0,
    (C7_spherical_centroid [((0:ℝ), 0)]).2.2 0 0 hsome⟩

/-! ## C8: great-circle destination -/
/-- C8: the spec-modelled great-circle destination from (0, 0) with
bearing 90 degrees over 111 km stays at latitude exactly 0 and lands
within 0.01 degrees of longitude 1. -/
theorem C8_destination_east :
    (destinationPoint 0 0 90 111).1 = 0 ∧
    |(destinationPoint 0 0 90 111).2 - 1| < 1 / 100 := by
  have hpi : 0 < Real.pi := Real.pi_pos
  have hpi1 : 3.141592 < Real.pi := Real.pi_gt_d6
  have hpi2 : Real.pi < 3.141593 := Real.pi_lt_d6
  have h90 : (90:ℝ) * Real.pi / 180 = Real.pi / 2 := by ring
  have h0 : (0:ℝ) * Real.pi / 180 = 0 := by ring
  have hδlt : (111:ℝ) / 6371 < Real.pi / 2 := by nlinarith
  have hδgt : -(Real.pi / 2) < (111:ℝ) / 6371 := by nlinarith
  have hcos : 0 < Real.cos (111 / 6371 : ℝ) :=
    Real.cos_pos_of_mem_Ioo ⟨hδgt, hδlt⟩
  have hfst : (destinationPoint 0 0 90 111).1 = 0 := by
    simp only [destinationPoint, h90, h0, Real.sin_zero, Real.cos_zero,
      Real.cos_pi_div_two, Real.sin_pi_div_two]
    norm_num [Real.arcsin_zero]
  refine ⟨hfst, ?_⟩
  have hsnd : (destinationPoint 0 0 90 111).2 =
      (111 / 6371 : ℝ) * 180 / Real.pi := by
    simp only [destinationPoint, h90, h0, Real.sin_zero, Real.cos_zero,
      Real.cos_pi_div_two, Real.sin_pi_div_two]
    norm_num [Real.arcsin_zero]
    rw [atan2, if_pos hcos]
    rw [← Real.tan_eq_sin_div_cos, Real.arctan_tan hδgt hδlt]
    ring
  rw [hsnd, abs_lt]
  constructor
  · have key : (99:ℝ) / 100 < 111 / 6371 * 180 / Real.pi := by
      rw [lt_div_iff₀ hpi]
      nlinarith
    linarith
  · have key : (111:ℝ) / 6371 * 180 / Real.pi < 101 / 100 := by
      rw [div_lt_iff₀ hpi]
      nlinarith
    linarith
